import Mathlib

/-!
Verification of the `imagine` browser client (static/js/app.js,
components/ImagePreviewModal.js, components/SettingsPanel.js, and the
legacy client in src/unnamed/part_002) against its natural-language
specification.  The JavaScript is shallowly embedded: dynamic JS values
are modelled by the inductive `JSVal` (finite numbers as rationals, NaN,
strings, null, undefined), DOM/controller state by explicit structures,
and each event handler by a pure state-transition function translated
line by line from the source.
-/

namespace Imagine

/-- Model of a JavaScript runtime value as it occurs in this client:
a finite number (rationals suffice for every literal in the source),
NaN, a string, null, or undefined. -/
inductive JSVal where
  | num : ℚ → JSVal
  | nan : JSVal
  | str : String → JSVal
  | null : JSVal
  | undef : JSVal
deriving Repr, DecidableEq

/-- JavaScript truthiness: 0, NaN, the empty string, null and undefined
are falsy; every other value here is truthy. -/
def truthy : JSVal → Bool
  | .num q => decide (q ≠ 0)
  | .nan => false
  | .str s => decide (s ≠ "")
  | .null => false
  | .undef => false

/-- The JavaScript expression a || b. -/
def jsOr (a b : JSVal) : JSVal := if truthy a then a else b

/-- Decimal digit test on characters. -/
def isDigitChar (c : Char) : Bool := (48 ≤ c.toNat) && (c.toNat ≤ 57)

/-- Value of a list of decimal digit characters, most significant first. -/
def digitsToNat (ds : List Char) : Nat :=
  ds.foldl (fun a c => a * 10 + (c.toNat - 48)) 0

/-- Strip an optional leading sign, returning the sign and the rest. -/
def splitSign : List Char → (Int × List Char)
  | '-' :: t => (-1, t)
  | '+' :: t => (1, t)
  | cs => (1, cs)

/-- The integer-parsing core of JavaScript parseInt on a string: skip
leading spaces, read an optional sign and then leading decimal digits;
no digits means NaN (here: none). -/
def strParseInt (s : String) : Option Int :=
  let cs := s.toList.dropWhile (fun c => c = ' ')
  let sc := splitSign cs
  let ds := sc.2.takeWhile isDigitChar
  if ds.isEmpty then none else some (sc.1 * (digitsToNat ds : Int))

/-- The core of JavaScript parseFloat on a string: optional sign,
decimal digits, optional fractional part; no digits at all means NaN. -/
def strParseFloat (s : String) : Option ℚ :=
  let cs := s.toList.dropWhile (fun c => c = ' ')
  let sc := splitSign cs
  let intDs := sc.2.takeWhile isDigitChar
  let rest := sc.2.drop intDs.length
  let fracDs := match rest with
    | '.' :: t => t.takeWhile isDigitChar
    | _ => []
  if intDs.isEmpty && fracDs.isEmpty then none
  else
    some ((sc.1 : ℚ) *
      ((digitsToNat intDs : ℚ) + (digitsToNat fracDs : ℚ) / (10 ^ fracDs.length : ℚ)))

/-- JavaScript parseInt applied to one of our runtime values: numbers are
truncated toward zero, strings go through the digit parser, everything
else (NaN, null, undefined) stringifies to something with no leading
digits and yields NaN. -/
def jsParseInt : JSVal → JSVal
  | .num q => .num (if 0 ≤ q then (Rat.floor q : ℚ) else (Rat.ceil q : ℚ))
  | .nan => .nan
  | .str s =>
    match strParseInt s with
    | some k => .num (k : ℚ)
    | none => .nan
  | .null => .nan
  | .undef => .nan

/-- JavaScript parseFloat applied to one of our runtime values. -/
def jsParseFloat : JSVal → JSVal
  | .num q => .num q
  | .nan => .nan
  | .str s =>
    match strParseFloat s with
    | some q => .num q
    | none => .nan
  | .null => .nan
  | .undef => .nan

/-- Math.min restricted to the shapes occurring in the client: on two
finite numbers it takes the minimum, any non-number gives NaN. -/
def jsMin (a b : JSVal) : JSVal :=
  match a, b with
  | .num x, .num y => .num (min x y)
  | _, _ => .nan

/-- Math.max, symmetric to jsMin. -/
def jsMax (a b : JSVal) : JSVal :=
  match a, b with
  | .num x, .num y => .num (max x y)
  | _, _ => .nan

/-- Whitespace for the purposes of String.prototype.trim. -/
def isWhitespaceChar (c : Char) : Bool :=
  c = ' ' || c = '\t' || c = '\n' || c = '\r'

/-- String.prototype.trim: drop leading and trailing whitespace. -/
def jsTrim (s : String) : String :=
  ⟨((s.toList.dropWhile isWhitespaceChar).reverse.dropWhile isWhitespaceChar).reverse⟩

/-- The generation settings object held in state.settings
(app.js lines 2-10 and 113-122). -/
structure Settings where
  batchSize : JSVal
  seed : JSVal
  guidanceScale : JSVal
  num_inference_steps : JSVal
  negativePrompt : JSVal
  height : JSVal
  width : JSVal
deriving Repr, DecidableEq

/-- The DEFAULT_SETTINGS constant of app.js lines 2-10. -/
def DEFAULT_SETTINGS : Settings :=
  { batchSize := .num 1
    seed := .str ""
    guidanceScale := .num 5
    num_inference_steps := .num 50
    negativePrompt := .str ""
    height := .num 1024
    width := .num 1024 }

/-- A partial settings object passed to handleSettingsChange: each field
is present (some) or absent (none) on the update object. -/
structure PartialSettings where
  batchSize : Option JSVal
  seed : Option JSVal
  guidanceScale : Option JSVal
  num_inference_steps : Option JSVal
  negativePrompt : Option JSVal
  height : Option JSVal
  width : Option JSVal
deriving Repr, DecidableEq

/-- The empty update object. -/
def PartialSettings.empty : PartialSettings :=
  ⟨none, none, none, none, none, none, none⟩

/-- handleSettingsChange (app.js lines 179-203): width, height,
num_inference_steps and guidanceScale are re-parsed with a constant
fallback (1024, 1024, 50, 7.5 via the or-operator); every other field
present on the update object (in particular batchSize and seed) is
merged into the store unchanged. -/
def handleSettingsChange (s : Settings) (p : PartialSettings) : Settings :=
  { batchSize := p.batchSize.getD s.batchSize
    seed := p.seed.getD s.seed
    guidanceScale :=
      match p.guidanceScale with
      | some v => jsOr (jsParseFloat v) (.num (15 / 2))
      | none => s.guidanceScale
    num_inference_steps :=
      match p.num_inference_steps with
      | some v => jsOr (jsParseInt v) (.num 50)
      | none => s.num_inference_steps
    negativePrompt := p.negativePrompt.getD s.negativePrompt
    height :=
      match p.height with
      | some v => jsOr (jsParseInt v) (.num 1024)
      | none => s.height
    width :=
      match p.width with
      | some v => jsOr (jsParseInt v) (.num 1024)
      | none => s.width }

/-- getBatchSizeFromDOM (app.js lines 127-130): read the batch-size
input's value (none models a missing element, whose optional-chained
value is undefined and hence falsy); a truthy string is parsed with
parseInt WITHOUT clamping, a falsy one falls back to the default. -/
def getBatchSizeFromDOM (domValue : Option String) : JSVal :=
  match domValue with
  | some s => if truthy (.str s) then jsParseInt (.str s) else DEFAULT_SETTINGS.batchSize
  | none => DEFAULT_SETTINGS.batchSize

/-- The batch-size change listener (app.js lines 216-220):
Math.max(1, Math.min(4, parseInt(value) || 1)). -/
def batchSizeListenerValue (inputValue : String) : JSVal :=
  jsMax (.num 1) (jsMin (.num 4) (jsOr (jsParseInt (.str inputValue)) (.num 1)))

/-- The seed change listener (app.js lines 223-226):
parseInt(value) || ''. -/
def seedListenerValue (inputValue : String) : JSVal :=
  jsOr (jsParseInt (.str inputValue)) (.str "")

/-- One image record of a successful /generate response:
{url, filename, prompt, seed, width, height}. -/
structure ServerImage where
  url : String
  filename : String
  prompt : String
  seed : JSVal
  width : JSVal
  height : JSVal
deriving Repr, DecidableEq

/-- A GeneratedImage as stored in state.generatedImages: the response
record spread together with the model name and (for freshly generated
images) a settings snapshot; images seeded from saved_images carry no
snapshot (none). -/
structure GImage where
  url : String
  filename : String
  prompt : String
  seed : JSVal
  width : JSVal
  height : JSVal
  model : JSVal
  settings : Option Settings
deriving Repr, DecidableEq

/-- The spread {...image, model, settings: {...this.state.settings}} of
app.js lines 381-385. -/
def tagImage (im : ServerImage) (model : JSVal) (settings : Settings) : GImage :=
  { url := im.url
    filename := im.filename
    prompt := im.prompt
    seed := im.seed
    width := im.width
    height := im.height
    model := model
    settings := some settings }

/-- The two ordered sequences the gallery maintains: the
state.generatedImages array, and the order of the image-grid children
in the document. -/
structure GalleryState where
  generatedImages : List GImage
  gridChildren : List GImage
deriving Repr, DecidableEq

/-- addGeneratedImages (app.js lines 377-392): forEach over the response
images, pushing each tagged record onto state.generatedImages (an append
at the END of the array) and appending its element to a document
fragment; the fragment is then inserted before the grid's first child,
so the grid receives the batch at the front in batch order. -/
def addGeneratedImages (g : GalleryState) (images : List ServerImage)
    (model : JSVal) (settings : Settings) : GalleryState :=
  let r := images.foldl
    (fun (acc : List GImage × List GImage) image =>
      let imageWithMetadata := tagImage image model settings
      (acc.1 ++ [imageWithMetadata], acc.2 ++ [imageWithMetadata]))
    (g.generatedImages, [])
  { generatedImages := r.1, gridChildren := r.2 ++ g.gridChildren }

/-- The state-array update of the legacy client's generateImages
(src/unnamed/part_002 lines 123-136): forEach over the batch, calling
unshift for each image, so each one is prepended in turn. -/
def generateImagesStateUpdate (old batch : List GImage) : List GImage :=
  batch.foldl (fun acc img => img :: acc) old

/-- JS Array.prototype.findIndex: index of the first element satisfying
the predicate. -/
def findFirstIndex (p : GImage → Bool) : List GImage → Option Nat
  | [] => none
  | x :: xs => if p x then some 0 else (findFirstIndex p xs).map (fun k => k + 1)

/-- The lookup in the thumbnail click listener (app.js lines 409-414):
state.generatedImages.findIndex(img => img.url === image.url),
returning -1 when no entry matches. -/
def findIndexByUrl (g : List GImage) (url : String) : Int :=
  match findFirstIndex (fun img => img.url == url) g with
  | some k => (k : Int)
  | none => -1

/-- The click listener itself: open the preview at the found index when
it is not -1, otherwise do nothing. -/
def thumbnailClick (g : List GImage) (clickedUrl : String) : Option Nat :=
  let index := findIndexByUrl g clickedUrl
  if index == -1 then none else some index.toNat

/-- The ArrowLeft transition of the preview modal
(ImagePreviewModal.js line 14): prev > 0 ? prev - 1 : images.length - 1. -/
def previewNavLeft (len i : Nat) : Nat := if 0 < i then i - 1 else len - 1

/-- The ArrowRight transition (ImagePreviewModal.js line 16):
prev < images.length - 1 ? prev + 1 : 0. -/
def previewNavRight (len i : Nat) : Nat := if i < len - 1 then i + 1 else 0

/-- The object literal passed to JSON.stringify in handleGenerate
(app.js lines 338-349), in source order.  The seed field is
this.state.settings.seed || undefined, and the image field is
this.state.sourceImage, which is null when no source image is
attached. -/
def rawBody (prompt : String) (s : Settings) (model : JSVal)
    (sourceImage : Option String) : List (String × JSVal) :=
  [("prompt", .str prompt),
   ("batch_size", s.batchSize),
   ("seed", jsOr s.seed .undef),
   ("guidance_scale", s.guidanceScale),
   ("num_inference_steps", s.num_inference_steps),
   ("negative_prompt", s.negativePrompt),
   ("model", model),
   ("height", s.height),
   ("width", s.width),
   ("image", match sourceImage with | some f => .str f | none => .null)]

/-- JSON.stringify keeps a field unless its value is undefined
(null IS serialized). -/
def keepVal : JSVal → Bool
  | .undef => false
  | _ => true

/-- The fields JSON.stringify actually serializes from an object. -/
def stringifyPairs (body : List (String × JSVal)) : List (String × JSVal) :=
  body.filter (fun kv => keepVal kv.2)

/-- Just the serialized field names, in order. -/
def stringifyKeys (body : List (String × JSVal)) : List String :=
  (stringifyPairs body).map Prod.fst

/-- A settings object none of whose always-serialized fields is
undefined (true of every settings object the client ever builds). -/
def Settings.noUndef (s : Settings) : Prop :=
  s.batchSize ≠ .undef ∧ s.guidanceScale ≠ .undef ∧
  s.num_inference_steps ≠ .undef ∧ s.negativePrompt ≠ .undef ∧
  s.height ≠ .undef ∧ s.width ≠ .undef

instance (s : Settings) : Decidable s.noUndef := by
  unfold Settings.noUndef; infer_instance

/-- The mutable client state of the ImageGenerator controller
(app.js lines 113-122 plus the generate button's DOM state). -/
structure AppState where
  isGenerating : Bool
  gallery : GalleryState
  sourceImage : Option String
  settings : Settings
  model : JSVal
  buttonDisabled : Bool
  buttonText : String
deriving Repr, DecidableEq

/-- How the awaited /generate call can come back: a success body with
images, a body with success false (and an optional error message), or a
thrown error (network failure, malformed JSON). -/
inductive GenOutcome where
  | success (images : List ServerImage)
  | httpFailure (error : Option String)
  | networkError (msg : String)
deriving Repr, DecidableEq

/-- Observable result of one handleGenerate call: the final controller
state, the serialized request body (none when no request was issued),
the alert messages shown, and the console.debug messages. -/
structure GenRun where
  state : AppState
  requestBody : Option (List (String × JSVal))
  alerts : List String
  debugLogs : List String
deriving Repr, DecidableEq

/-- handleGenerate (app.js lines 309-375).  Re-entrant calls while
isGenerating hit the guard and only log.  A prompt that trims to the
empty string alerts and returns before any request.  Otherwise the flag
is set, the button disabled, the request issued from the current state,
and on success the returned images are added to the gallery (the
delayed-snapshot timing of that addition is modelled separately by
handleGenerateSuccessFlow); the finally block clears the flag and
re-enables the button on every completion path. -/
def handleGenerate (st : AppState) (promptInput : String)
    (outcome : GenOutcome) : GenRun :=
  if st.isGenerating then
    { state := st, requestBody := none, alerts := []
      debugLogs := ["Generation in progress..."] }
  else
    let prompt := jsTrim promptInput
    if prompt = "" then
      { state := st, requestBody := none
        alerts := ["Please enter a prompt!"], debugLogs := [] }
    else
      let busy := { st with
        isGenerating := true, buttonDisabled := true
        buttonText := "Generating..." }
      let body := rawBody prompt st.settings st.model st.sourceImage
      match outcome with
      | .success images =>
        { state := { busy with
            gallery := addGeneratedImages busy.gallery images busy.model busy.settings
            isGenerating := false, buttonDisabled := false
            buttonText := "Generate" }
          requestBody := some body, alerts := [], debugLogs := [] }
      | .httpFailure err =>
        { state := { busy with
            isGenerating := false, buttonDisabled := false
            buttonText := "Generate" }
          requestBody := some body
          alerts := ["Failed to generate images: " ++ err.getD "Generation failed"]
          debugLogs := [] }
      | .networkError msg =>
        { state := { busy with
            isGenerating := false, buttonDisabled := false
            buttonText := "Generate" }
          requestBody := some body
          alerts := ["Failed to generate images: " ++ msg]
          debugLogs := [] }

/-- The success tail of handleGenerate with its real timing: the
response arrives, then the gallery addition runs in a setTimeout 1200 ms
later (app.js lines 362-364) and snapshots this.state.settings as they
are THEN.  The parameter p is whatever settings change the user made
between issuing the request and the delayed callback
(PartialSettings.empty when nothing changed). -/
def handleGenerateSuccessFlow (st : AppState) (p : PartialSettings)
    (images : List ServerImage) : GalleryState :=
  let settingsAtAddTime := handleSettingsChange st.settings p
  addGeneratedImages st.gallery images st.model settingsAtAddTime

/-- The drop-zone / preview markup: either cleared or showing the
locally read data URL of the chosen file. -/
inductive PreviewMarkup where
  | empty : PreviewMarkup
  | container : String → PreviewMarkup
deriving Repr, DecidableEq

/-- The upload widget's state: state.sourceImage, the preview markup,
the drop-zone's has-image class, the file input's value, and the
loading indicator. -/
structure UploadUI where
  sourceImage : Option String
  preview : PreviewMarkup
  hasImageClass : Bool
  fileInputValue : String
  loadingVisible : Bool
deriving Repr, DecidableEq

/-- How the awaited /upload call can come back: a JSON body
{success, filename?, error?}, or a thrown error. -/
inductive UploadOutcome where
  | response (success : Bool) (filename : Option String) (error : Option String)
  | networkError (msg : String)
deriving Repr, DecidableEq

/-- True on every failing completion of an upload: a response with
success false, or a thrown error. -/
def UploadOutcome.isFailure : UploadOutcome → Bool
  | .response s _ _ => !s
  | .networkError _ => true

/-- clearSourceImage (app.js lines 302-307). -/
def clearSourceImage (u : UploadUI) : UploadUI :=
  { u with
    sourceImage := none
    preview := .empty
    hasImageClass := false
    fileInputValue := "" }

/-- handleImageUpload (app.js lines 259-286): show the loading
indicator, post the file; on success store the returned filename and
render the local preview (updateSourceImagePreview, lines 288-300); on
any failure (success false or a thrown error) clearSourceImage and
alert; finally hide the loading indicator. -/
def handleImageUpload (u : UploadUI) (fileDataURL : String)
    (outcome : UploadOutcome) : UploadUI × List String :=
  let u1 := { u with loadingVisible := true }
  match outcome with
  | .response true filename _ =>
    let u2 := { u1 with
      sourceImage := filename
      preview := .container fileDataURL
      hasImageClass := true }
    ({ u2 with loadingVisible := false }, [])
  | .response false _ err =>
    ({ clearSourceImage u1 with loadingVisible := false },
     ["Failed to upload image: " ++ err.getD "Upload failed"])
  | .networkError msg =>
    ({ clearSourceImage u1 with loadingVisible := false },
     ["Failed to upload image: " ++ msg])

/-! Helper lemmas about the embedded primitives. -/

theorem keepVal_eq_true_iff (v : JSVal) : keepVal v = true ↔ v ≠ .undef := by
  cases v <;> simp [keepVal]

theorem truthy_ne_undef (v : JSVal) (h : truthy v = true) : v ≠ .undef := by
  cases v <;> simp_all [truthy]

theorem jsParseInt_shape (v : JSVal) :
    jsParseInt v = .nan ∨ ∃ q : ℚ, jsParseInt v = .num q := by
  cases v with
  | num q => right; exact ⟨_, rfl⟩
  | nan => left; rfl
  | str s =>
    cases h : strParseInt s with
    | none => left; simp [jsParseInt, h]
    | some k => right; exact ⟨(k : ℚ), by simp [jsParseInt, h]⟩
  | null => left; rfl
  | undef => left; rfl

theorem jsParseFloat_shape (v : JSVal) :
    jsParseFloat v = .nan ∨ ∃ q : ℚ, jsParseFloat v = .num q := by
  cases v with
  | num q => right; exact ⟨_, rfl⟩
  | nan => left; rfl
  | str s =>
    cases h : strParseFloat s with
    | none => left; simp [jsParseFloat, h]
    | some q => right; exact ⟨q, by simp [jsParseFloat, h]⟩
  | null => left; rfl
  | undef => left; rfl

theorem jsOr_num_of_shape (w : JSVal) (d : ℚ)
    (h : w = .nan ∨ ∃ q : ℚ, w = .num q) :
    ∃ q : ℚ, jsOr w (.num d) = .num q := by
  rcases h with h | ⟨q, h⟩
  · exact ⟨d, by simp [h, jsOr, truthy]⟩
  · subst h
    by_cases hq : q = 0
    · exact ⟨d, by simp [jsOr, truthy, hq]⟩
    · exact ⟨q, by simp [jsOr, truthy, hq]⟩

theorem addGeneratedImages_fold (images : List ServerImage) (model : JSVal)
    (settings : Settings) : ∀ arr frag : List GImage,
    images.foldl
      (fun (acc : List GImage × List GImage) image =>
        let imageWithMetadata := tagImage image model settings
        (acc.1 ++ [imageWithMetadata], acc.2 ++ [imageWithMetadata]))
      (arr, frag) =
    (arr ++ images.map (fun im => tagImage im model settings),
     frag ++ images.map (fun im => tagImage im model settings)) := by
  induction images with
  | nil => intro arr frag; simp
  | cons x xs ih =>
    intro arr frag
    simp only [List.foldl_cons, List.map_cons]
    rw [ih]
    simp

theorem addGeneratedImages_spec (g : GalleryState) (images : List ServerImage)
    (model : JSVal) (settings : Settings) :
    addGeneratedImages g images model settings =
      { generatedImages :=
          g.generatedImages ++ images.map (fun im => tagImage im model settings)
        gridChildren :=
          images.map (fun im => tagImage im model settings) ++ g.gridChildren } := by
  unfold addGeneratedImages
  rw [addGeneratedImages_fold]
  simp

theorem generateImagesStateUpdate_spec (old batch : List GImage) :
    generateImagesStateUpdate old batch = batch.reverse ++ old := by
  induction batch generalizing old with
  | nil => simp [generateImagesStateUpdate]
  | cons x xs ih =>
    simp only [generateImagesStateUpdate, List.foldl_cons, List.reverse_cons]
    rw [show List.foldl (fun acc img => img :: acc) (x :: old) xs =
          generateImagesStateUpdate (x :: old) xs from rfl, ih]
    simp

theorem findFirstIndex_none_iff (p : GImage → Bool) (g : List GImage) :
    findFirstIndex p g = none ↔ ∀ x ∈ g, p x = false := by
  induction g with
  | nil => simp [findFirstIndex]
  | cons x xs ih =>
    by_cases hp : p x = true
    · simp [findFirstIndex, hp]
    · have hp' : p x = false := by simpa using hp
      simp [findFirstIndex, hp', ih]

theorem findFirstIndex_some_spec (p : GImage → Bool) :
    ∀ (g : List GImage) (j : Nat), findFirstIndex p g = some j →
    j < g.length ∧ (g.drop j).head?.map p = some true ∧
    ∀ x ∈ g.take j, p x = false := by
  intro g
  induction g with
  | nil => intro j h; simp [findFirstIndex] at h
  | cons x xs ih =>
    intro j h
    by_cases hp : p x = true
    · simp [findFirstIndex, hp] at h
      subst h
      simp [hp]
    · have hp' : p x = false := by simpa using hp
      simp only [findFirstIndex, hp', if_neg] at h
      simp only [Bool.false_eq_true, if_false, Option.map_eq_some'] at h
      obtain ⟨k, hk, rfl⟩ := h
      obtain ⟨h1, h2, h3⟩ := ih k hk
      refine ⟨by simpa using Nat.succ_lt_succ h1, by simpa using h2, ?_⟩
      intro y hy
      simp only [List.take_succ_cons, List.mem_cons] at hy
      rcases hy with rfl | hy
      · exact hp'
      · exact h3 y hy

theorem batchSizeListenerValue_clamped (input : String) :
    ∃ n : Int, batchSizeListenerValue input = .num (n : ℚ) ∧ 1 ≤ n ∧ n ≤ 4 := by
  unfold batchSizeListenerValue
  cases h : strParseInt input with
  | none =>
    refine ⟨1, ?_, by norm_num, by norm_num⟩
    simp [jsParseInt, h, jsOr, truthy, jsMin, jsMax]
  | some k =>
    by_cases hk : (k : ℚ) = 0
    · refine ⟨1, ?_, by norm_num, by norm_num⟩
      simp [jsParseInt, h, jsOr, truthy, hk, jsMin, jsMax]
    · refine ⟨max 1 (min 4 k), ?_, le_max_left _ _,
        max_le (by norm_num) (min_le_left _ _)⟩
      simp [jsParseInt, h, jsOr, truthy, hk, jsMin, jsMax]

/-! Concrete fixtures used by counterexamples and witnesses. -/

/-- A gallery entry loaded at startup (no settings snapshot). -/
def exOldImage : GImage :=
  { url := "/images/old.png", filename := "old.png", prompt := "old prompt"
    seed := .num 1, width := .num 1024, height := .num 1024
    model := .str "sd", settings := none }

/-- A fresh /generate response record. -/
def exServerImage : ServerImage :=
  { url := "/images/new.png", filename := "new.png", prompt := "a red fox"
    seed := .num 42, width := .num 1024, height := .num 1024 }

/-- A gallery already holding one pre-existing entry. -/
def exGallery1 : GalleryState :=
  { generatedImages := [exOldImage], gridChildren := [exOldImage] }

/-- An idle controller state with an empty gallery. -/
def exIdleState : AppState :=
  { isGenerating := false
    gallery := { generatedImages := [], gridChildren := [] }
    sourceImage := none
    settings := DEFAULT_SETTINGS
    model := .str "sd"
    buttonDisabled := false
    buttonText := "Generate" }

/-- The same controller while a generation is outstanding. -/
def exBusyState : AppState := { exIdleState with isGenerating := true }

/-- Two gallery entries sharing one url, plus a third distinct one. -/
def exDupA : GImage :=
  { exOldImage with url := "/images/dup.png", filename := "a.png", prompt := "first" }

def exDupB : GImage :=
  { exOldImage with url := "/images/dup.png", filename := "b.png", prompt := "second" }

def exGalleryDup : List GImage := [exDupA, exDupB, exOldImage]

/-- An upload widget currently showing an attached image. -/
def exUploadAttached : UploadUI :=
  { sourceImage := some "prev.png"
    preview := .container "data:image/png;base64,AAAA"
    hasImageClass := true
    fileInputValue := "C:\\fakepath\\prev.png"
    loadingVisible := false }

/-! The claims. -/

/-- Claim C7 (confirmed): preview-modal navigation over a non-empty list
of length n at an in-range index i is cyclic: ArrowLeft goes to i-1 for
i greater than 0 and wraps to n-1 at 0; ArrowRight goes to i+1 below the
last index and wraps to 0 at n-1; both transitions stay in range. -/
theorem claim_C7_preview_navigation_cyclic (n i : Nat) (hn : 0 < n) (hi : i < n) :
    (0 < i → previewNavLeft n i = i - 1) ∧
    (i = 0 → previewNavLeft n i = n - 1) ∧
    (i < n - 1 → previewNavRight n i = i + 1) ∧
    (i = n - 1 → previewNavRight n i = 0) ∧
    previewNavLeft n i < n ∧ previewNavRight n i < n := by
  refine ⟨?_, ?_, ?_, ?_, ?_, ?_⟩
  · intro h; simp [previewNavLeft, h]
  · intro h; simp [previewNavLeft, h]
  · intro h; simp [previewNavRight, h]
  · intro h; subst h; simp [previewNavRight]
  · unfold previewNavLeft; split <;> omega
  · unfold previewNavRight; split <;> omega

/-- Witness for C7 at length 3, index 0: the left arrow wraps to 2, the
right arrow moves to 1. -/
theorem claim_C7_witness :
    (0 < 0 → previewNavLeft 3 0 = 0 - 1) ∧
    (0 = 0 → previewNavLeft 3 0 = 3 - 1) ∧
    (0 < 3 - 1 → previewNavRight 3 0 = 0 + 1) ∧
    (0 = 3 - 1 → previewNavRight 3 0 = 0) ∧
    previewNavLeft 3 0 < 3 ∧ previewNavRight 3 0 < 3 :=
  claim_C7_preview_navigation_cyclic 3 0 (by decide) (by decide)

/-- Claim C10 (confirmed): a thumbnail click resolves the preview index
by the first gallery entry whose url equals the clicked one — when the
url occurs more than once the first occurrence wins — and when no entry
matches, the click is ignored (no preview opened). -/
theorem claim_C10_thumbnail_click_first_url_match (g : List GImage) (url : String) :
    (thumbnailClick g url = none ↔ ∀ img ∈ g, img.url ≠ url) ∧
    (∀ j, thumbnailClick g url = some j →
      j < g.length ∧
      (g.drop j).head?.map (fun img => img.url) = some url ∧
      ∀ img ∈ g.take j, img.url ≠ url) := by
  cases h : findFirstIndex (fun img => img.url == url) g with
  | none =>
    have hall := (findFirstIndex_none_iff _ g).mp h
    constructor
    · constructor
      · intro _ img hm
        have := hall img hm
        simpa using this
      · intro _
        simp [thumbnailClick, findIndexByUrl, h]
    · intro j hj
      simp [thumbnailClick, findIndexByUrl, h] at hj
  | some k =>
    have hne : (((k : Nat) : Int) == -1) = false := by
      simp only [beq_eq_false_iff_ne, ne_eq]
      omega
    have hclick : thumbnailClick g url = some k := by
      simp [thumbnailClick, findIndexByUrl, h, hne]
    obtain ⟨h1, h2, h3⟩ := findFirstIndex_some_spec _ g k h
    constructor
    · constructor
      · intro hc
        rw [hclick] at hc
        simp at hc
      · intro hall
        exfalso
        rw [Option.map_eq_some'] at h2
        obtain ⟨y, hy, hpy⟩ := h2
        rw [List.head?_eq_some_iff] at hy
        obtain ⟨ys, hys⟩ := hy
        have hymem : y ∈ g :=
          List.mem_of_mem_drop (l := g) (n := k) (by rw [hys]; exact List.mem_cons_self _ _)
        have : y.url = url := by simpa using hpy
        exact hall y hymem this
    · intro j hj
      rw [hclick] at hj
      obtain rfl : k = j := by simpa using hj
      refine ⟨h1, ?_, ?_⟩
      · rw [Option.map_eq_some'] at h2 ⊢
        obtain ⟨y, hy, hpy⟩ := h2
        exact ⟨y, hy, by simpa using hpy⟩
      · intro img hm
        have := h3 img hm
        simpa using this

/-- Witness for C10: in a gallery whose first two entries share a url,
clicking that url opens the preview at index 0 (the first occurrence). -/
theorem claim_C10_witness :
    0 < exGalleryDup.length ∧
    (exGalleryDup.drop 0).head?.map (fun img => img.url) = some "/images/dup.png" ∧
    ∀ img ∈ exGalleryDup.take 0, img.url ≠ "/images/dup.png" :=
  (claim_C10_thumbnail_click_first_url_match exGalleryDup "/images/dup.png").2 0 (by decide)

/-- Claim C8 (confirmed): every failing upload attempt — a thrown error
or a response with success false — leaves the upload controller in the
empty state: sourceImage is null, the drop-zone has no has-image class,
the preview markup is cleared, and the file input is reset. -/
theorem claim_C8_upload_failure_resets (u : UploadUI) (fileDataURL : String)
    (o : UploadOutcome) (h : o.isFailure = true) :
    (handleImageUpload u fileDataURL o).1.sourceImage = none ∧
    (handleImageUpload u fileDataURL o).1.hasImageClass = false ∧
    (handleImageUpload u fileDataURL o).1.preview = .empty ∧
    (handleImageUpload u fileDataURL o).1.fileInputValue = "" := by
  cases o with
  | response s f e =>
    cases s with
    | true => simp [UploadOutcome.isFailure] at h
    | false => simp [handleImageUpload, clearSourceImage]
  | networkError m => simp [handleImageUpload, clearSourceImage]

/-- Witness for C8: an upload that had an image attached and receives
{success: false, error: "bad file"} ends with everything cleared. -/
theorem claim_C8_witness :
    (UploadOutcome.response false none (some "bad file")).isFailure = true ∧
    ((handleImageUpload exUploadAttached "data:image/png;base64,BBBB"
        (.response false none (some "bad file"))).1.sourceImage = none ∧
      (handleImageUpload exUploadAttached "data:image/png;base64,BBBB"
        (.response false none (some "bad file"))).1.hasImageClass = false ∧
      (handleImageUpload exUploadAttached "data:image/png;base64,BBBB"
        (.response false none (some "bad file"))).1.preview = .empty ∧
      (handleImageUpload exUploadAttached "data:image/png;base64,BBBB"
        (.response false none (some "bad file"))).1.fileInputValue = "") :=
  ⟨by decide,
   claim_C8_upload_failure_resets exUploadAttached "data:image/png;base64,BBBB"
     (.response false none (some "bad file")) (by decide)⟩

/-- Claim C9 (confirmed): a generate call made while isGenerating is set
is a no-op — state untouched, no request, no alert, only a debug log —
and every run that actually issued a request finishes with the flag
cleared and the submit button enabled with its idle label, so the
controller returns to idle on success and on failure alike. -/
theorem claim_C9_single_outstanding_generation :
    (∀ (st : AppState) (input : String) (outcome : GenOutcome),
      st.isGenerating = true →
      handleGenerate st input outcome =
        { state := st, requestBody := none, alerts := []
          debugLogs := ["Generation in progress..."] }) ∧
    (∀ (st : AppState) (input : String) (outcome : GenOutcome),
      (handleGenerate st input outcome).requestBody.isSome = true →
      (handleGenerate st input outcome).state.isGenerating = false ∧
      (handleGenerate st input outcome).state.buttonDisabled = false ∧
      (handleGenerate st input outcome).state.buttonText = "Generate") := by
  constructor
  · intro st input outcome h
    simp [handleGenerate, h]
  · intro st input outcome h
    by_cases hg : st.isGenerating
    · simp [handleGenerate, hg] at h
    · by_cases hp : jsTrim input = ""
      · simp [handleGenerate, hg, hp] at h
      · cases outcome <;> simp [handleGenerate, hg, hp]

/-- Witness for C9: a re-entrant call on a busy controller is the logged
no-op, and an idle-state run that fails over the network still ends with
the flag cleared and the button re-enabled. -/
theorem claim_C9_witness :
    handleGenerate exBusyState "a red fox" (.networkError "timeout") =
      { state := exBusyState, requestBody := none, alerts := []
        debugLogs := ["Generation in progress..."] } ∧
    ((handleGenerate exIdleState "a red fox" (.networkError "timeout")).state.isGenerating = false ∧
      (handleGenerate exIdleState "a red fox" (.networkError "timeout")).state.buttonDisabled = false ∧
      (handleGenerate exIdleState "a red fox" (.networkError "timeout")).state.buttonText = "Generate") :=
  ⟨claim_C9_single_outstanding_generation.1 exBusyState "a red fox"
      (.networkError "timeout") rfl,
   claim_C9_single_outstanding_generation.2 exIdleState "a red fox"
      (.networkError "timeout") (by decide)⟩

/-- Counterexample to claim C1 as stated: with one pre-existing gallery
entry, a successful one-image batch does NOT land at the front of the
GeneratedImage sequence — addGeneratedImages pushes it, so the new entry
sits behind the pre-existing one in state.generatedImages. -/
theorem claim_C1_counterexample :
    (addGeneratedImages exGallery1 [exServerImage] (.str "sd")
        DEFAULT_SETTINGS).generatedImages ≠
      tagImage exServerImage (.str "sd") DEFAULT_SETTINGS ::
        exGallery1.generatedImages := by
  decide

/-- Claim C1 as amended: a successful batch of n images adds exactly n
tagged entries to the GeneratedImage sequence, APPENDED at the end in
batch order (the DOM grid, by contrast, receives the batch at the front
in batch order); in the legacy client the per-image unshift puts the
batch at the front of the array but with its internal order reversed. -/
theorem claim_C1_gallery_growth :
    (∀ (g : GalleryState) (images : List ServerImage) (model : JSVal)
        (settings : Settings),
      (addGeneratedImages g images model settings).generatedImages =
        g.generatedImages ++ images.map (fun im => tagImage im model settings) ∧
      (addGeneratedImages g images model settings).generatedImages.length =
        g.generatedImages.length + images.length ∧
      (addGeneratedImages g images model settings).gridChildren =
        images.map (fun im => tagImage im model settings) ++ g.gridChildren) ∧
    (∀ old batch : List GImage,
      generateImagesStateUpdate old batch = batch.reverse ++ old) := by
  constructor
  · intro g images model settings
    rw [addGeneratedImages_spec]
    refine ⟨rfl, by simp, rfl⟩
  · exact generateImagesStateUpdate_spec

/-- The batch-size values that claim C2 asserts: an integer between
1 and 4. -/
def batchInRange (v : JSVal) : Prop :=
  ∃ n : Int, v = .num (n : ℚ) ∧ 1 ≤ n ∧ n ≤ 4

/-- Counterexample to claim C2 as stated: the startup read of the
batch-size input does not clamp.  The input element permits values up to
8 (max="8" in the page template), and getBatchSizeFromDOM on the value
"8" stores 8, outside [1, 4]. -/
theorem claim_C2_counterexample :
    ¬ batchInRange (getBatchSizeFromDOM (some "8")) := by
  intro h
  obtain ⟨n, hv, h1, h4⟩ := h
  have hv8 : getBatchSizeFromDOM (some "8") = JSVal.num 8 := by decide
  rw [hv8] at hv
  have hq : (8 : ℚ) = (n : ℚ) := by simpa using hv
  have hn : n = 8 := by exact_mod_cast hq.symm
  omega

/-- Claim C2 as amended: every change event on the batch-size input
stores an integer clamped to [1, 4] (the settings panel never updates
batchSize at all), but the initial startup read merely parses the DOM
value — falling back to the default 1 only when the value is empty or
the element missing — so a startup value outside [1, 4], such as the 8
the input element itself permits, is stored unclamped. -/
theorem claim_C2_batch_size_clamped :
    (∀ (s : Settings) (input : String),
      batchInRange
        ((handleSettingsChange s
          { PartialSettings.empty with batchSize := some (batchSizeListenerValue input) }).batchSize)) ∧
    (∀ domValue : Option String,
      getBatchSizeFromDOM domValue =
        match domValue with
        | some str => if str ≠ "" then jsParseInt (.str str) else .num 1
        | none => .num 1) := by
  constructor
  · intro s input
    obtain ⟨n, hval, h1, h4⟩ := batchSizeListenerValue_clamped input
    exact ⟨n, by simpa [handleSettingsChange, PartialSettings.empty] using hval, h1, h4⟩
  · intro domValue
    cases domValue with
    | none => rfl
    | some str =>
      by_cases hs : str = ""
      · simp [getBatchSizeFromDOM, truthy, hs, DEFAULT_SETTINGS]
      · simp [getBatchSizeFromDOM, truthy, hs, DEFAULT_SETTINGS]

/-- Counterexample to claim C4 as stated: the gallery addition runs in a
setTimeout 1200 ms after the response and snapshots the settings THEN.
If the user changes the width to 512 in between, the entry's snapshot
differs from the settings that were current when the request was
issued. -/
theorem claim_C4_counterexample :
    (handleGenerateSuccessFlow exIdleState
        { PartialSettings.empty with width := some (.str "512") }
        [exServerImage]).generatedImages.map (fun gi => gi.settings) ≠
      [some exIdleState.settings] := by
  decide

/-- Claim C4 as amended: every entry a successful generation adds to the
gallery carries a settings snapshot equal to the settings current when
the delayed addition runs (request-time settings composed with whatever
settings change happened while waiting); when nothing changed in
between, that snapshot is exactly the request-time settings.  The
snapshot itself is a copy and is never mutated afterwards —
handleSettingsChange replaces the store wholesale and touches no
existing snapshot. -/
theorem claim_C4_settings_snapshot :
    (∀ (st : AppState) (p : PartialSettings) (images : List ServerImage),
      (handleGenerateSuccessFlow st p images).generatedImages =
        st.gallery.generatedImages ++
          images.map (fun im =>
            tagImage im st.model (handleSettingsChange st.settings p))) ∧
    (∀ (st : AppState) (images : List ServerImage),
      (handleGenerateSuccessFlow st PartialSettings.empty images).generatedImages =
        st.gallery.generatedImages ++
          images.map (fun im => tagImage im st.model st.settings)) := by
  have hempty : ∀ s : Settings, handleSettingsChange s PartialSettings.empty = s := by
    intro s; rfl
  constructor
  · intro st p images
    unfold handleGenerateSuccessFlow
    rw [addGeneratedImages_spec]
  · intro st images
    unfold handleGenerateSuccessFlow
    rw [hempty, addGeneratedImages_spec]

/-- Counterexample to claim C5 as stated: a call with a whitespace-only
prompt made while a generation is outstanding hits the isGenerating
guard first, so NO validation message is shown (only a debug log),
although the claim promises one for every blank-prompt call. -/
theorem claim_C5_counterexample :
    exBusyState.isGenerating = true ∧
    jsTrim "   " = "" ∧
    (handleGenerate exBusyState "   " (.httpFailure none)).alerts = [] := by
  refine ⟨rfl, by decide, ?_⟩
  simp [handleGenerate, exBusyState, exIdleState]

/-- Claim C5 as amended: every generate call made in the idle state
whose prompt trims to the empty string issues no request, shows the
validation alert, and leaves the controller state — flag, gallery,
settings, source image and all — exactly unchanged; a blank-prompt call
made while already generating is instead swallowed by the re-entrancy
guard with only a debug log. -/
theorem claim_C5_blank_prompt_no_request (st : AppState) (input : String)
    (outcome : GenOutcome) (hIdle : st.isGenerating = false)
    (hBlank : jsTrim input = "") :
    handleGenerate st input outcome =
      { state := st, requestBody := none
        alerts := ["Please enter a prompt!"], debugLogs := [] } := by
  simp [handleGenerate, hIdle, hBlank]

/-- Witness for C5: an idle controller given the prompt "   " alerts
and stays put. -/
theorem claim_C5_witness :
    exIdleState.isGenerating = false ∧
    jsTrim "   " = "" ∧
    handleGenerate exIdleState "   " (.success [exServerImage]) =
      { state := exIdleState, requestBody := none
        alerts := ["Please enter a prompt!"], debugLogs := [] } :=
  ⟨rfl, by decide,
   claim_C5_blank_prompt_no_request exIdleState "   " (.success [exServerImage])
     rfl (by decide)⟩

/-- Counterexample to claim C3 as stated: with no source image attached,
the serialized /generate body still contains an image field —
this.state.sourceImage is null, and JSON.stringify keeps null-valued
fields, dropping only undefined ones. -/
theorem claim_C3_counterexample :
    ("image", JSVal.null) ∈
      stringifyPairs (rawBody "a red fox" DEFAULT_SETTINGS (.str "sd") none) := by
  decide

/-- Claim C3 as amended: provided the settings fields and the model name
are defined (always true once startup finished), the serialized body
holds exactly prompt, batch_size, seed when the seed setting is truthy
(omitted when falsy), guidance_scale, num_inference_steps,
negative_prompt, model, height, width, and ALWAYS an image field — the
source filename when an image is attached, null when none is. -/
theorem claim_C3_request_body_fields (prompt : String) (s : Settings)
    (model : JSVal) (src : Option String) (hs : s.noUndef)
    (hm : model ≠ .undef) :
    stringifyKeys (rawBody prompt s model src) =
      ["prompt", "batch_size"] ++
        (if truthy s.seed = true then ["seed"] else []) ++
        ["guidance_scale", "num_inference_steps", "negative_prompt",
         "model", "height", "width", "image"] ∧
    ("image", match src with | some f => JSVal.str f | none => JSVal.null) ∈
      stringifyPairs (rawBody prompt s model src) := by
  obtain ⟨h1, h2, h3, h4, h5, h6⟩ := hs
  have hb := (keepVal_eq_true_iff _).mpr h1
  have hg := (keepVal_eq_true_iff _).mpr h2
  have hn := (keepVal_eq_true_iff _).mpr h3
  have hneg := (keepVal_eq_true_iff _).mpr h4
  have hh := (keepVal_eq_true_iff _).mpr h5
  have hw := (keepVal_eq_true_iff _).mpr h6
  have hmo := (keepVal_eq_true_iff _).mpr hm
  have himg : keepVal (match src with
      | some f => JSVal.str f
      | none => JSVal.null) = true := by
    cases src <;> rfl
  have hp : keepVal (JSVal.str prompt) = true := rfl
  have hu : keepVal JSVal.undef = false := rfl
  by_cases hseed : truthy s.seed = true
  · have hsv : jsOr s.seed .undef = s.seed := by simp [jsOr, hseed]
    have hks := (keepVal_eq_true_iff _).mpr (truthy_ne_undef _ hseed)
    constructor
    · simp [stringifyKeys, stringifyPairs, rawBody, List.filter, hb, hg, hn,
        hneg, hh, hw, hmo, hseed, hsv, hks, himg, hp]
    · simp [stringifyPairs, rawBody, List.filter, hb, hg, hn,
        hneg, hh, hw, hmo, hsv, hks, himg, hp]
  · have hsv : jsOr s.seed .undef = .undef := by
      simp only [jsOr]
      rw [if_neg (by simpa using hseed)]
    constructor
    · simp [stringifyKeys, stringifyPairs, rawBody, List.filter, hb, hg, hn,
        hneg, hh, hw, hmo, hseed, hsv, himg, hp, hu]
    · simp [stringifyPairs, rawBody, List.filter, hb, hg, hn,
        hneg, hh, hw, hmo, hsv, himg, hp, hu]

/-- Witness for C3: the default settings (falsy seed) with a truthy seed
installed, a model name and an attached image serialize to the full key
list with seed present and the image filename as the image value. -/
theorem claim_C3_witness :
    Settings.noUndef { DEFAULT_SETTINGS with seed := JSVal.num 42 } ∧
    JSVal.str "sd" ≠ JSVal.undef ∧
    (stringifyKeys (rawBody "a red fox" { DEFAULT_SETTINGS with seed := JSVal.num 42 }
        (.str "sd") (some "up.png")) =
      ["prompt", "batch_size"] ++
        (if truthy (JSVal.num 42) = true then ["seed"] else []) ++
        ["guidance_scale", "num_inference_steps", "negative_prompt",
         "model", "height", "width", "image"] ∧
      ("image", JSVal.str "up.png") ∈
        stringifyPairs (rawBody "a red fox"
          { DEFAULT_SETTINGS with seed := JSVal.num 42 } (.str "sd") (some "up.png"))) :=
  ⟨by decide, by decide,
   claim_C3_request_body_fields "a red fox"
     { DEFAULT_SETTINGS with seed := JSVal.num 42 } (.str "sd") (some "up.png")
     (by decide) (by decide)⟩

/-- Counterexample to claim C6 as stated: when the guidance-scale input
fails to parse, the stored value falls back to 7.5 — NOT to the field's
default, since DEFAULT_SETTINGS.guidanceScale is 5. -/
theorem claim_C6_counterexample :
    (handleSettingsChange DEFAULT_SETTINGS
        { PartialSettings.empty with guidanceScale := some (.str "abc") }).guidanceScale =
      JSVal.num (15 / 2) ∧
    DEFAULT_SETTINGS.guidanceScale = JSVal.num 5 ∧
    (handleSettingsChange DEFAULT_SETTINGS
        { PartialSettings.empty with guidanceScale := some (.str "abc") }).guidanceScale ≠
      DEFAULT_SETTINGS.guidanceScale := by
  have habc : strParseFloat "abc" = none := by decide
  have hval : (handleSettingsChange DEFAULT_SETTINGS
      { PartialSettings.empty with guidanceScale := some (.str "abc") }).guidanceScale =
      JSVal.num (15 / 2) := by
    simp [handleSettingsChange, PartialSettings.empty, jsParseFloat, habc, jsOr, truthy]
  refine ⟨hval, rfl, ?_⟩
  rw [hval]
  simp only [DEFAULT_SETTINGS, ne_eq, JSVal.num.injEq]
  norm_num

/-- Claim C6 as amended: on every settings update the re-parsed numeric
fields are never stored as NaN or undefined: width and height fall back
to 1024 on parse failure and num_inference_steps to 50, as claimed, but
guidanceScale falls back to the constant 7.5 rather than its
DEFAULT_SETTINGS value 5; all four always end up as finite numbers.
batchSize and seed are coerced at their change listeners before
reaching the store: on parse failure the listeners yield the defaults
1 and the empty string respectively. -/
theorem claim_C6_numeric_fallbacks :
    (∀ (s : Settings) (v : JSVal), jsParseInt v = .nan →
      (handleSettingsChange s { PartialSettings.empty with width := some v }).width =
          .num 1024 ∧
        (handleSettingsChange s { PartialSettings.empty with height := some v }).height =
          .num 1024 ∧
        (handleSettingsChange s
            { PartialSettings.empty with num_inference_steps := some v }).num_inference_steps =
          .num 50) ∧
    (∀ (s : Settings) (v : JSVal), jsParseFloat v = .nan →
      (handleSettingsChange s
          { PartialSettings.empty with guidanceScale := some v }).guidanceScale =
        .num (15 / 2)) ∧
    (∀ (s : Settings) (v : JSVal),
      (∃ q : ℚ, (handleSettingsChange s
          { PartialSettings.empty with width := some v }).width = .num q) ∧
      (∃ q : ℚ, (handleSettingsChange s
          { PartialSettings.empty with height := some v }).height = .num q) ∧
      (∃ q : ℚ, (handleSettingsChange s
          { PartialSettings.empty with num_inference_steps := some v }).num_inference_steps =
          .num q) ∧
      (∃ q : ℚ, (handleSettingsChange s
          { PartialSettings.empty with guidanceScale := some v }).guidanceScale = .num q)) ∧
    (∀ input : String, strParseInt input = none →
      seedListenerValue input = .str "" ∧ batchSizeListenerValue input = .num 1) := by
  refine ⟨?_, ?_, ?_, ?_⟩
  · intro s v h
    refine ⟨?_, ?_, ?_⟩ <;>
      simp [handleSettingsChange, PartialSettings.empty, h, jsOr, truthy]
  · intro s v h
    simp [handleSettingsChange, PartialSettings.empty, h, jsOr, truthy]
  · intro s v
    refine ⟨?_, ?_, ?_, ?_⟩
    · simpa [handleSettingsChange, PartialSettings.empty] using
        jsOr_num_of_shape (jsParseInt v) 1024 (jsParseInt_shape v)
    · simpa [handleSettingsChange, PartialSettings.empty] using
        jsOr_num_of_shape (jsParseInt v) 1024 (jsParseInt_shape v)
    · simpa [handleSettingsChange, PartialSettings.empty] using
        jsOr_num_of_shape (jsParseInt v) 50 (jsParseInt_shape v)
    · simpa [handleSettingsChange, PartialSettings.empty] using
        jsOr_num_of_shape (jsParseFloat v) (15 / 2) (jsParseFloat_shape v)
  · intro input h
    constructor
    · simp [seedListenerValue, jsParseInt, h, jsOr, truthy]
    · simp [batchSizeListenerValue, jsParseInt, h, jsOr, truthy, jsMin, jsMax]

/-- Witness for C6: the unparseable inputs NaN (what the settings panel
passes through parseInt and parseFloat on garbage text) and "x" exercise
every fallback: width and height land on 1024, the step count on 50,
the guidance scale on 7.5, the seed listener on the empty string and
the batch listener on 1. -/
theorem claim_C6_witness :
    jsParseInt JSVal.nan = JSVal.nan ∧
    jsParseFloat JSVal.nan = JSVal.nan ∧
    strParseInt "x" = none ∧
    ((handleSettingsChange DEFAULT_SETTINGS
          { PartialSettings.empty with width := some JSVal.nan }).width = .num 1024 ∧
      (handleSettingsChange DEFAULT_SETTINGS
          { PartialSettings.empty with height := some JSVal.nan }).height = .num 1024 ∧
      (handleSettingsChange DEFAULT_SETTINGS
          { PartialSettings.empty with num_inference_steps := some JSVal.nan }).num_inference_steps =
        .num 50) ∧
    (handleSettingsChange DEFAULT_SETTINGS
        { PartialSettings.empty with guidanceScale := some JSVal.nan }).guidanceScale =
      .num (15 / 2) ∧
    (seedListenerValue "x" = .str "" ∧ batchSizeListenerValue "x" = .num 1) :=
  ⟨rfl, rfl, by decide,
   claim_C6_numeric_fallbacks.1 DEFAULT_SETTINGS JSVal.nan rfl,
   claim_C6_numeric_fallbacks.2.1 DEFAULT_SETTINGS JSVal.nan rfl,
   claim_C6_numeric_fallbacks.2.2.2 "x" (by decide)⟩

end Imagine
